import Mathlib

/-!
Verification of the build-and-signal bridge of
`amazon-kinesis-analytics-beam-taxi-consumer`.

The repository consists of a CDK stack (`src/cdk/lib/cdk-stack.ts`) and the
CloudFormation template it synthesizes
(`src/cdk/cdk.out/BeamTaxiCount-Build.template.json`).  The subsystem under
study is:

* the CodePipeline `BeamTaxiConsumerBuildPipelineMyPipeline9ECC2268` with
  stages Source → Build → Copy, where the Copy stage holds two actions:
  `CopyAction` (RunOrder 1, S3 deploy = the Publish stage of the spec) and
  `InvokeAction` (RunOrder 2, invoking the Notify lambda);
* the Notify lambda `BeamTaxiConsumerBuildPipelineNotifyLambdaEB7E94E5`,
  whose inline Python code signals the CloudFormation wait-condition handle
  and reports the job result back to CodePipeline;
* the wait condition `BeamTaxiConsumerBuildPipelineWaitConditionA50E497A`
  (Count 1, Timeout "300") — the completion gate;
* the webhook
  `BeamTaxiConsumerBuildPipelineMyPipelineSourceSourceActionWebhookResource8C2B15E4`
  (GITHUB_HMAC authentication, filter `$.ref` = `refs/heads/{Branch}`).
-/

namespace BeamTaxi

/-! ## Template values and configuration (from the CloudFormation template
and `cdk-stack.ts`) -/

/-- A value occurring in the CloudFormation template: either a reference to a
template parameter (`Ref`) or a literal. -/
inductive TemplateValue where
  | paramRef (name : String)
  | literal (s : String)
deriving DecidableEq, Repr

/-- The `Configuration` block of the pipeline's `SourceAction`
(template lines 472–480). -/
structure SourceActionConfig where
  owner : String
  repo : String
  branch : String
  oauthToken : TemplateValue
  pollForSourceChanges : Bool
deriving DecidableEq, Repr

/-- The `SourceAction` configuration as synthesized in the template:
owner `aws-samples`, repo `amazon-kinesis-analytics-beam-taxi-consumer`,
branch `master`, OAuth token = `Ref GithubOauthToken`, polling disabled. -/
def sourceActionConfig : SourceActionConfig :=
  { owner := "aws-samples"
    repo := "amazon-kinesis-analytics-beam-taxi-consumer"
    branch := "master"
    oauthToken := .paramRef "GithubOauthToken"
    pollForSourceChanges := false }

/-- The `AWS::CodePipeline::Webhook` resource (template lines 583–608):
GITHUB_HMAC authentication whose secret token is `Ref GithubOauthToken`,
a single filter on `$.ref` matching `refs/heads/{Branch}`, targeting
`SourceAction`. -/
structure WebhookResource where
  authentication : String
  secretToken : TemplateValue
  filterJsonPath : String
  filterMatchEquals : String
  targetAction : String
deriving DecidableEq, Repr

/-- The webhook resource as synthesized in the template. -/
def webhookResource : WebhookResource :=
  { authentication := "GITHUB_HMAC"
    secretToken := .paramRef "GithubOauthToken"
    filterJsonPath := "$.ref"
    filterMatchEquals := "refs/heads/{Branch}"
    targetAction := "SourceAction" }

/-- Where a configuration value of the spec's configuration surface comes
from in the source: a CloudFormation parameter without a default (the
deployer must supply it), a CloudFormation/CDK parameter with a default
value, or a value hard-coded in the template / stack code. -/
inductive ConfigOrigin where
  | requiredParam (cfnName : String)
  | defaultedParam (cfnName : String) (defaultValue : String)
  | fixedValue (value : String)
deriving DecidableEq, Repr

/-- One entry of the configuration surface: the spec's name for it and its
origin in the source. -/
structure ConfigItem where
  specName : String
  origin : ConfigOrigin
deriving DecidableEq, Repr

/-- The configuration surface `{repoOwner, repoName, branch, sharedSecret,
artifactNamePattern, buildCommand, gateTimeout}` as it is realised by the
source:

* `repoOwner` is the `GithubUser` CDK parameter, `default: 'aws-samples'`
  (`cdk-stack.ts` lines 56–60); in the synthesized template it is baked in
  as the literal `aws-samples`;
* `sharedSecret` is the `GithubOauthToken` template parameter (no default);
* `repoName`, `branch`, `artifactNamePattern`, `buildCommand` and
  `gateTimeout` are hard-coded (`amazon-kinesis-analytics-beam-taxi-consumer`,
  `master`, `target/beam-taxi-count-*.jar` in the buildspec, `mvn clean
  package -B` in the buildspec, wait-condition `Timeout "300"`). -/
def configSurface : List ConfigItem :=
  [ { specName := "repoOwner", origin := .defaultedParam "GithubUser" "aws-samples" }
  , { specName := "repoName", origin := .fixedValue "amazon-kinesis-analytics-beam-taxi-consumer" }
  , { specName := "branch", origin := .fixedValue "master" }
  , { specName := "sharedSecret", origin := .requiredParam "GithubOauthToken" }
  , { specName := "artifactNamePattern", origin := .fixedValue "target/beam-taxi-count-*.jar" }
  , { specName := "buildCommand", origin := .fixedValue "mvn clean package -B" }
  , { specName := "gateTimeout", origin := .fixedValue "300" } ]

/-- An origin is a parameter that must be supplied (no default). -/
def requiredNoDefault : ConfigOrigin → Bool
  | .requiredParam _ => true
  | .defaultedParam _ _ => false
  | .fixedValue _ => false

/-- The default value an origin carries, if any. -/
def originDefault : ConfigOrigin → Option String
  | .requiredParam _ => none
  | .defaultedParam _ v => some v
  | .fixedValue _ => none

/-- Look up the origin of a spec-named configuration value. -/
def configOriginOf (n : String) : Option ConfigOrigin :=
  (configSurface.find? fun c => c.specName == n).map ConfigItem.origin

/-- The claim "every configuration parameter is required and none has a
default, except `branch` which defaults to `master`" evaluated over the
configuration surface. -/
def allRequiredExceptBranch : Bool :=
  configSurface.all fun c =>
    if c.specName == "branch" then originDefault c.origin == some "master"
    else requiredNoDefault c.origin

/-! ## The pipeline structure (template lines 453–582) -/

/-- An action of a pipeline stage: its `Name` and `RunOrder`. -/
structure PipeAction where
  name : String
  runOrder : Nat
deriving DecidableEq, Repr

/-- A pipeline stage: its `Name` and its actions. -/
structure PipeStage where
  name : String
  actions : List PipeAction
deriving DecidableEq, Repr

/-- The `Stages` property of
`BeamTaxiConsumerBuildPipelineMyPipeline9ECC2268`: Source holds
`SourceAction` (RunOrder 1), Build holds `BuildAction` (RunOrder 1), Copy
holds `CopyAction` (RunOrder 1, the S3 deploy) and `InvokeAction`
(RunOrder 2, invoking the Notify lambda). -/
def pipelineStages : List PipeStage :=
  [ { name := "Source", actions := [{ name := "SourceAction", runOrder := 1 }] }
  , { name := "Build", actions := [{ name := "BuildAction", runOrder := 1 }] }
  , { name := "Copy", actions :=
      [ { name := "CopyAction", runOrder := 1 }
      , { name := "InvokeAction", runOrder := 2 } ] } ]

/-- Insert an action into a list sorted by ascending `RunOrder`. -/
def insertByRunOrder (a : PipeAction) : List PipeAction → List PipeAction
  | [] => [a]
  | b :: bs =>
    if a.runOrder ≤ b.runOrder then a :: b :: bs else b :: insertByRunOrder a bs

/-- Sort a stage's actions by ascending `RunOrder` (actions with a higher
run order only start after the lower ones finished). -/
def sortByRunOrder : List PipeAction → List PipeAction
  | [] => []
  | a :: as => insertByRunOrder a (sortByRunOrder as)

/-- The pipeline's actions in execution order: stages in declared order,
actions within a stage by ascending `RunOrder`. -/
def pipelineActionNames : List String :=
  ((pipelineStages.map fun s => sortByRunOrder s.actions).map
    fun as => as.map PipeAction.name).flatten

/-- Modelled from the spec: the executor of the declared pipeline is not in
the repository (it is the CodePipeline service); the spec describes it:
"Transitions are strictly sequential: a stage only starts once its
predecessor succeeded" and "any stage failure halts forward progress".
Given the per-action outcome (`true` = the action succeeds if it runs),
runs the actions in order, stopping after the first failing action; returns
the list of actions that actually executed.  The template declares no
on-failure trigger for any action, so no action is exempt from the
sequential rule. -/
def runActions (outcome : String → Bool) : List String → List String
  | [] => []
  | a :: rest => if outcome a then a :: runActions outcome rest else [a]

/-- The actions of this pipeline that execute under a given outcome
assignment. -/
def executedActions (outcome : String → Bool) : List String :=
  runActions outcome pipelineActionNames

/-- How many times the Notify lambda invocation (`InvokeAction`) executes
in one pipeline execution under a given outcome assignment. -/
def notifyExecutions (outcome : String → Bool) : Nat :=
  (executedActions outcome).count "InvokeAction"

/-- The outcome assignment in which exactly the Build stage's action
fails. -/
def buildFailsOutcome : String → Bool :=
  fun a => a != "BuildAction"

/-! ## The Notify lambda (inline Python, template lines 281–311)

```
def handler(event, context):
    job_id = event['CodePipeline.job']['id']
    url = os.environ['waitHandleUrl']
    headers = { "Content-Type": "" }
    data = { "Status": "SUCCESS", "Reason": "Compilation Succeeded",
             "UniqueId": job_id, "Data": "Compilation Succeeded" }
    try:
        req = urllib.request.Request(url, headers=headers,
                data=bytes(json.dumps(data), encoding="utf-8"), method='PUT')
        response = urllib.request.urlopen(req)
        code_pipeline.put_job_success_result(jobId=job_id)
    except Exception as e:
        print("failure: " + str(e))
        code_pipeline.put_job_failure_result(jobId=job_id,
            failureDetails={'message': str(e), 'type': 'JobFailed'})
```
-/

/-- The JSON body of the gate signal. -/
structure GateSignal where
  Status : String
  Reason : String
  UniqueId : String
  Data : String
deriving DecidableEq, Repr

/-- The body the lambda builds for the wait-handle PUT: constant except for
`UniqueId`, which is the CodePipeline job id. -/
def waitHandleSignalBody (job_id : String) : GateSignal :=
  { Status := "SUCCESS"
    Reason := "Compilation Succeeded"
    UniqueId := job_id
    Data := "Compilation Succeeded" }

/-- A Python exception, abstracted to its `str` rendering. -/
structure PyError where
  msg : String
deriving DecidableEq, Repr

/-- An outbound call the lambda makes: the HTTP PUT of the gate signal to
the wait-handle URL, `put_job_success_result`, or `put_job_failure_result`
with its `failureDetails` message and type. -/
inductive Call where
  | putSignal (body : GateSignal)
  | putJobSuccess (jobId : String)
  | putJobFailure (jobId : String) (message : String) (failureType : String)
deriving DecidableEq, Repr

/-- The outcomes of the three external calls the handler can make: any of
them may raise a Python exception (`urlopen` raises on any non-2xx response
or network error; the boto3 calls raise on API errors — the handler's own
`try` block covering `put_job_success_result` shows the code treats them as
fallible). -/
structure Oracle where
  httpResult : Except PyError Unit
  putSuccessResult : Except PyError Unit
  putFailureResult : Except PyError Unit

/-- What one handler invocation did: the outbound calls it issued, in
order, and the exception that escaped the handler, if any. -/
structure HandlerRun where
  calls : List Call
  raised : Option PyError
deriving DecidableEq, Repr

/-- The handler of the Notify lambda, as a function of the job id taken
from the event and the outcomes of its external calls.  The `try` block
covers `urlopen` and `put_job_success_result`; the `except` block issues
`put_job_failure_result` with `message = str(e)` and `type = 'JobFailed'`,
and is itself unprotected, so an exception raised there escapes the
handler. -/
def handler (job_id : String) (w : Oracle) : HandlerRun :=
  match w.httpResult with
  | .ok _ =>
    match w.putSuccessResult with
    | .ok _ =>
      { calls := [.putSignal (waitHandleSignalBody job_id), .putJobSuccess job_id]
        raised := none }
    | .error e =>
      match w.putFailureResult with
      | .ok _ =>
        { calls := [.putSignal (waitHandleSignalBody job_id), .putJobSuccess job_id,
                    .putJobFailure job_id e.msg "JobFailed"]
          raised := none }
      | .error e3 =>
        { calls := [.putSignal (waitHandleSignalBody job_id), .putJobSuccess job_id,
                    .putJobFailure job_id e.msg "JobFailed"]
          raised := some e3 }
  | .error e =>
    match w.putFailureResult with
    | .ok _ =>
      { calls := [.putSignal (waitHandleSignalBody job_id),
                  .putJobFailure job_id e.msg "JobFailed"]
        raised := none }
    | .error e3 =>
      { calls := [.putSignal (waitHandleSignalBody job_id),
                  .putJobFailure job_id e.msg "JobFailed"]
        raised := some e3 }

/-- Is a call an outbound gate-signal attempt? -/
def isSignalCall : Call → Bool
  | .putSignal _ => true
  | .putJobSuccess _ => false
  | .putJobFailure _ _ _ => false

/-- Is a call an outbound job report to CodePipeline? -/
def isJobReport : Call → Bool
  | .putSignal _ => false
  | .putJobSuccess _ => true
  | .putJobFailure _ _ _ => true

/-- Number of gate-signal attempts a handler run issued. -/
def signalAttempts (r : HandlerRun) : Nat :=
  (r.calls.filter isSignalCall).length

/-- Number of job reports a handler run issued. -/
def jobReports (r : HandlerRun) : Nat :=
  (r.calls.filter isJobReport).length

/-! ## The completion gate (wait condition, template lines 191–209)

The template declares `AWS::CloudFormation::WaitConditionHandle` and
`AWS::CloudFormation::WaitCondition` with `Count 1` and `Timeout "300"`;
the behaviour of these resources is implemented by CloudFormation, not by
code in this repository, so it is modelled from the spec. -/

/-- The gate timeout, from the wait condition's `Timeout "300"`. -/
def gateTimeout : Nat := 300

/-- Status carried by a gate signal. -/
inductive GateStatus where
  | success
  | failure
deriving DecidableEq, Repr

/-- A signal sent to the gate: a status and a payload. -/
structure Signal where
  status : GateStatus
  payload : String
deriving DecidableEq, Repr

/-- Modelled from the spec: the gate's state machine
`waiting → fired(success) | fired(failure) | expired` (the wait condition's
behaviour is CloudFormation's; only its declaration, `Count 1` and
`Timeout "300"`, is in the template). -/
inductive GateState where
  | waiting
  | fired (status : GateStatus) (payload : String)
  | expired
deriving DecidableEq, Repr

/-- Modelled from the spec: how the gate reacts to one time-stamped signal.
While `waiting`, a signal arriving before the timeout fires the gate with
that signal's status and payload verbatim; a signal arriving at or after
the timeout finds the gate already expired.  In any terminal state further
signals are ignored without error (idempotent no-op). -/
def gateStep (g : GateState) (e : Nat × Signal) : GateState :=
  match g with
  | .waiting =>
    if e.1 < gateTimeout then .fired e.2.status e.2.payload else .expired
  | .fired s p => .fired s p
  | .expired => .expired

/-- Modelled from the spec: the gate's terminal state, observed after the
timeout has elapsed, given the time-stamped signals in arrival order.  If
no signal ever fired the gate, the elapsed timeout resolves it to
`expired`. -/
def gateFinal (trace : List (Nat × Signal)) : GateState :=
  match trace.foldl gateStep .waiting with
  | .waiting => .expired
  | .fired s p => .fired s p
  | .expired => .expired

/-! ## The webhook intake (template lines 583–608)

The webhook's behaviour (HMAC verification, `$.ref` filtering) is
implemented by CodePipeline; the template declares the authentication mode
`GITHUB_HMAC` with `SecretToken = Ref GithubOauthToken` and the single
filter `$.ref` = `refs/heads/{Branch}` with `Branch = master` from the
target `SourceAction`'s configuration. -/

/-- An incoming webhook payload: the JSON field `ref` and the raw body over
which the HMAC is computed. -/
structure WebhookPayload where
  ref : String
  rawBody : String
deriving DecidableEq, Repr

/-- An incoming webhook request: the payload and the HMAC signature
header. -/
structure WebhookRequest where
  payload : WebhookPayload
  signature : String
deriving DecidableEq, Repr

/-- The webhook's effective configuration: the shared secret (the value of
the `GithubOauthToken` parameter) and the branch. -/
structure WebhookConfig where
  secret : String
  branch : String
deriving DecidableEq, Repr

/-- The ref the webhook's filter matches, after CodePipeline substitutes
the target action's `Branch` into `refs/heads/{Branch}`. -/
def resolvedRefFilter (branch : String) : String :=
  "refs/heads/" ++ branch

/-- Modelled from the spec: whether the webhook starts a pipeline execution
on a request.  `mac` is the HMAC function (abstract; the theorems hold for
any such function): the request is accepted, and the target `SourceAction`
triggered, exactly when the signature matches the HMAC of the raw body
under the configured secret and the payload's `ref` equals
`refs/heads/<configured branch>`. -/
def webhookStartsExecution (mac : String → String → String)
    (cfg : WebhookConfig) (r : WebhookRequest) : Bool :=
  (r.signature == mac cfg.secret r.payload.rawBody)
    && (r.payload.ref == resolvedRefFilter cfg.branch)

/-! ## Helper lemmas -/

/-- The pipeline's execution order is SourceAction, BuildAction, CopyAction,
InvokeAction. -/
lemma pipelineActionNames_eq :
    pipelineActionNames = ["SourceAction", "BuildAction", "CopyAction", "InvokeAction"] := by
  rfl

/-- Once the gate is in a terminal state, any further signals leave it
unchanged. -/
lemma gate_absorb (l : List (Nat × Signal)) (g : GateState)
    (hg : g ≠ GateState.waiting) : l.foldl gateStep g = g := by
  induction l generalizing g with
  | nil => rfl
  | cons e rest ih =>
    have hstep : gateStep g e = g := by
      cases g with
      | waiting => exact absurd rfl hg
      | fired s p => rfl
      | expired => rfl
    rw [List.foldl_cons, hstep]
    exact ih g hg

/-- Every gate signal the handler issues is the body built from the job
id. -/
lemma putSignal_mem_handler (jid : String) (w : Oracle) (body : GateSignal)
    (h : Call.putSignal body ∈ (handler jid w).calls) :
    body = waitHandleSignalBody jid := by
  obtain ⟨hr, ps, pf⟩ := w
  cases hr <;> cases ps <;> cases pf <;> simp [handler] at h <;> exact h

/-! ## Claim theorems -/

/-- C3: for every invocation of the Notifier Bridge, it reports job success
to the Orchestrator (issues `put_job_success_result`) if and only if the
HTTP signal to the gate returned a success response; otherwise it reports
job failure carrying the captured error as message and type `JobFailed`;
and a failure to deliver the gate signal never suppresses the job report
(at least one job report is always issued). -/
theorem bridge_report_iff_http (jid : String) (w : Oracle) :
    (Call.putJobSuccess jid ∈ (handler jid w).calls ↔ w.httpResult = .ok ()) ∧
    (∀ e, w.httpResult = .error e →
      Call.putJobFailure jid e.msg "JobFailed" ∈ (handler jid w).calls) ∧
    1 ≤ jobReports (handler jid w) := by
  obtain ⟨hr, ps, pf⟩ := w
  cases hr with
  | ok u =>
    cases u
    cases ps <;> cases pf <;>
      simp [handler, jobReports, isJobReport]
  | error e =>
    cases ps <;> cases pf <;>
      simp [handler, jobReports, isJobReport]

/-- Witness for `bridge_report_iff_http` at a concrete failed HTTP call. -/
theorem bridge_report_iff_http_witness :
    Call.putJobFailure "job-1" "gate unreachable" "JobFailed" ∈
      (handler "job-1" ⟨.error ⟨"gate unreachable"⟩, .ok (), .ok ()⟩).calls ∧
    1 ≤ jobReports (handler "job-1" ⟨.error ⟨"gate unreachable"⟩, .ok (), .ok ()⟩) := by
  have h := bridge_report_iff_http "job-1" ⟨.error ⟨"gate unreachable"⟩, .ok (), .ok ()⟩
  exact ⟨h.2.1 ⟨"gate unreachable"⟩ rfl, h.2.2⟩

/-- C4 counterexample: it is not the case that every invocation, for every
outcome of its network calls, issues exactly one signal attempt and exactly
one job report and returns normally.  Concretely, when the HTTP signal
succeeds but `put_job_success_result` itself raises, the shared `except`
block additionally issues `put_job_failure_result`, so two job reports are
issued. -/
theorem bridge_side_effects_cex :
    ¬ (∀ (jid : String) (w : Oracle),
        signalAttempts (handler jid w) = 1 ∧ jobReports (handler jid w) = 1 ∧
        (handler jid w).raised = none) :=
  fun h =>
    absurd (h "job-1" ⟨.ok (), .error ⟨"codepipeline unavailable"⟩, .ok ()⟩).2.1
      (by decide)

/-- C4 amended: every invocation issues exactly one outbound signal attempt
to the gate; and when the CodePipeline report calls themselves do not
raise, it issues exactly one job report and the handler returns normally.
(If `put_job_success_result` raises, a second, failure report is issued;
if `put_job_failure_result` raises, the exception escapes the handler.) -/
theorem bridge_side_effects (jid : String) (w : Oracle) :
    signalAttempts (handler jid w) = 1 ∧
    (w.putSuccessResult = .ok () → w.putFailureResult = .ok () →
      jobReports (handler jid w) = 1 ∧ (handler jid w).raised = none) := by
  obtain ⟨hr, ps, pf⟩ := w
  cases hr <;> cases ps <;> cases pf <;>
    simp [handler, signalAttempts, jobReports, isSignalCall, isJobReport]

/-- Witness for `bridge_side_effects` at a concrete all-successful run. -/
theorem bridge_side_effects_witness :
    signalAttempts (handler "job-1" ⟨.ok (), .ok (), .ok ()⟩) = 1 ∧
    jobReports (handler "job-1" ⟨.ok (), .ok (), .ok ()⟩) = 1 ∧
    (handler "job-1" ⟨.ok (), .ok (), .ok ()⟩).raised = none := by
  have h := bridge_side_effects "job-1" ⟨.ok (), .ok (), .ok ()⟩
  exact ⟨h.1, h.2 rfl rfl⟩

/-- C9: the gate signal body the bridge attempts to send always has Status
`SUCCESS`, Reason `Compilation Succeeded` and Data `Compilation Succeeded`
(only `UniqueId`, the job id, varies), whatever the outcomes of the
external calls; in particular no code path sends a FAILURE-status
signal. -/
theorem notify_signal_constant (jid : String) (w : Oracle) :
    Call.putSignal (waitHandleSignalBody jid) ∈ (handler jid w).calls ∧
    ∀ body, Call.putSignal body ∈ (handler jid w).calls →
      body.Status = "SUCCESS" ∧ body.Reason = "Compilation Succeeded" ∧
      body.Data = "Compilation Succeeded" ∧ body.UniqueId = jid ∧
      body.Status ≠ "FAILURE" := by
  constructor
  · obtain ⟨hr, ps, pf⟩ := w
    cases hr <;> cases ps <;> cases pf <;> simp [handler]
  · intro body hb
    have hbody := putSignal_mem_handler jid w body hb
    subst hbody
    exact ⟨rfl, rfl, rfl, rfl,
      fun hc => absurd hc (show ¬ ("SUCCESS" : String) = "FAILURE" by decide)⟩

/-- Witness for `notify_signal_constant` at a concrete invocation. -/
theorem notify_signal_constant_witness :
    (waitHandleSignalBody "job-1").Status = "SUCCESS" ∧
    (waitHandleSignalBody "job-1").Reason = "Compilation Succeeded" ∧
    (waitHandleSignalBody "job-1").UniqueId = "job-1" := by
  have h := notify_signal_constant "job-1" ⟨.ok (), .ok (), .ok ()⟩
  have h2 := h.2 (waitHandleSignalBody "job-1") h.1
  exact ⟨h2.1, h2.2.1, h2.2.2.2.1⟩

/-- C10: the webhook's HMAC secret token and the source action's OAuth
token are the same template value, a `Ref` to the single
`GithubOauthToken` parameter; the webhook authenticates via GITHUB_HMAC. -/
theorem shared_secret_is_oauth_token :
    webhookResource.secretToken = sourceActionConfig.oauthToken ∧
    webhookResource.secretToken = TemplateValue.paramRef "GithubOauthToken" ∧
    webhookResource.authentication = "GITHUB_HMAC" := by
  decide

/-- C1 counterexample: in the execution where the Build stage's action
fails (and every other action would succeed), it is not the case that the
Notify invocation executes exactly once, Publish is skipped, and a
FAILURE-status gate signal is delivered: the pipeline halts after
`BuildAction`, so `InvokeAction` executes zero times, and no code path of
the bridge ever produces a FAILURE-status signal body. -/
theorem build_failure_notify_cex :
    ¬ (notifyExecutions buildFailsOutcome = 1 ∧
       "CopyAction" ∉ executedActions buildFailsOutcome ∧
       ∃ (jid : String) (w : Oracle) (body : GateSignal),
         Call.putSignal body ∈ (handler jid w).calls ∧ body.Status = "FAILURE") :=
  fun h => absurd h.1 (by decide)

/-- C1 amended: for every execution in which Source succeeds and Build
fails, the Notify invocation does not execute at all (the pipeline halts
before the Copy stage, so Publish is skipped as well and no gate signal is
attempted for that execution); moreover every gate signal the bridge ever
sends has status SUCCESS, so a FAILURE-status signal is never delivered and
the gate can only resolve by timeout. -/
theorem build_failure_skips_notify (outcome : String → Bool)
    (hS : outcome "SourceAction" = true) (hB : outcome "BuildAction" = false) :
    notifyExecutions outcome = 0 ∧
    "CopyAction" ∉ executedActions outcome ∧
    ∀ (jid : String) (w : Oracle) (body : GateSignal),
      Call.putSignal body ∈ (handler jid w).calls → body.Status = "SUCCESS" := by
  have he : executedActions outcome = ["SourceAction", "BuildAction"] := by
    rw [executedActions, pipelineActionNames_eq]
    simp [runActions, hS, hB]
  refine ⟨?_, ?_, ?_⟩
  · rw [notifyExecutions, he]
    decide
  · rw [he]
    decide
  · intro jid w body hb
    have hbody := putSignal_mem_handler jid w body hb
    subst hbody
    rfl

/-- Witness for `build_failure_skips_notify` at the concrete outcome where
exactly `BuildAction` fails. -/
theorem build_failure_skips_notify_witness :
    notifyExecutions buildFailsOutcome = 0 ∧
    "CopyAction" ∉ executedActions buildFailsOutcome ∧
    (waitHandleSignalBody "job-1").Status = "SUCCESS" := by
  have h := build_failure_skips_notify buildFailsOutcome (by decide) (by decide)
  refine ⟨h.1, h.2.1, ?_⟩
  exact h.2.2 "job-1" ⟨.ok (), .ok (), .ok ()⟩ (waitHandleSignalBody "job-1")
    (by decide)

/-- C2: for every execution in which the Source, Build and Publish
(CopyAction) stages succeed, the Notify invocation executes exactly once,
and when its HTTP PUT to the gate succeeds it has delivered the signal body
built from the job id, whose Status is SUCCESS and whose UniqueId equals
the execution's job handle. -/
theorem build_publish_success_notify (outcome : String → Bool) (jid : String)
    (w : Oracle) (hS : outcome "SourceAction" = true)
    (hB : outcome "BuildAction" = true) (hC : outcome "CopyAction" = true)
    (hHttp : w.httpResult = .ok ()) :
    notifyExecutions outcome = 1 ∧
    Call.putSignal (waitHandleSignalBody jid) ∈ (handler jid w).calls ∧
    (waitHandleSignalBody jid).Status = "SUCCESS" ∧
    (waitHandleSignalBody jid).UniqueId = jid := by
  refine ⟨?_, ?_, rfl, rfl⟩
  · rw [notifyExecutions, executedActions, pipelineActionNames_eq]
    cases h4 : outcome "InvokeAction" <;> simp [runActions, hS, hB, hC, h4]
  · obtain ⟨hr, ps, pf⟩ := w
    cases hr with
    | ok u => cases ps <;> cases pf <;> simp [handler]
    | error e => simp at hHttp

/-- Witness for `build_publish_success_notify` at a concrete all-successful
execution. -/
theorem build_publish_success_notify_witness :
    notifyExecutions (fun _ => true) = 1 ∧
    Call.putSignal (waitHandleSignalBody "job-42") ∈
      (handler "job-42" ⟨.ok (), .ok (), .ok ()⟩).calls ∧
    (waitHandleSignalBody "job-42").UniqueId = "job-42" := by
  have h := build_publish_success_notify (fun _ => true) "job-42"
    ⟨.ok (), .ok (), .ok ()⟩ rfl rfl rfl rfl
  exact ⟨h.1, h.2.1, h.2.2.2⟩

/-- C5: for every gate and every sequence of N ≥ 2 signals (success or
failure, in any order), the gate's terminal state equals the terminal state
produced by the first signal alone — later signals are ignored without
error; and when the first signal arrives before the timeout, the terminal
state is fired with exactly that signal's status and payload. -/
theorem gate_first_signal_wins (e : Nat × Signal) (rest : List (Nat × Signal))
    (hN : 1 ≤ rest.length) :
    gateFinal (e :: rest) = gateFinal [e] ∧
    (e.1 < gateTimeout →
      gateFinal (e :: rest) = GateState.fired e.2.status e.2.payload) := by
  have hstep : gateStep GateState.waiting e ≠ GateState.waiting := by
    rw [gateStep]
    split <;> simp
  have h1 : (e :: rest).foldl gateStep GateState.waiting =
      gateStep GateState.waiting e := by
    rw [List.foldl_cons]
    exact gate_absorb rest _ hstep
  have h2 : [e].foldl gateStep GateState.waiting = gateStep GateState.waiting e := by
    rfl
  constructor
  · rw [gateFinal, gateFinal, h1, h2]
  · intro hlt
    rw [gateFinal, h1, gateStep]
    simp [hlt]

/-- Witness for `gate_first_signal_wins`: a failure signal at time 10
followed by a success signal at time 20 leaves the gate fired with the
first signal's status and payload. -/
theorem gate_first_signal_wins_witness :
    gateFinal [(10, ⟨GateStatus.failure, "build broke"⟩),
               (20, ⟨GateStatus.success, "late"⟩)] =
      GateState.fired GateStatus.failure "build broke" := by
  have h := gate_first_signal_wins (10, ⟨GateStatus.failure, "build broke"⟩)
    [(20, ⟨GateStatus.success, "late"⟩)] (by decide)
  exact h.2 (by decide)

/-- C6: for every gate that receives no signal before the 300-unit timeout
elapses (every signal in the trace arrives at or after `gateTimeout`), the
terminal state is `expired`, which is distinct from `waiting`. -/
theorem gate_expires_without_signal (trace : List (Nat × Signal))
    (h : ∀ p ∈ trace, gateTimeout ≤ p.1) :
    gateFinal trace = GateState.expired ∧
    GateState.expired ≠ GateState.waiting := by
  refine ⟨?_, by simp⟩
  cases trace with
  | nil => rfl
  | cons e rest =>
    have he : gateTimeout ≤ e.1 := h e (by simp)
    have hstep : gateStep GateState.waiting e = GateState.expired := by
      rw [gateStep]
      simp [Nat.not_lt.mpr he]
    rw [gateFinal, List.foldl_cons, hstep, gate_absorb rest _ (by simp)]

/-- Witness for `gate_expires_without_signal`: a single signal arriving
exactly at the timeout leaves the gate expired. -/
theorem gate_expires_without_signal_witness :
    gateFinal [(300, ⟨GateStatus.success, "too late"⟩)] = GateState.expired :=
  (gate_expires_without_signal [(300, ⟨GateStatus.success, "too late"⟩)]
    (by decide)).1

/-- C7: for every HMAC function, configured secret and incoming request, the
webhook (configured with the template's branch, `master`) starts a pipeline
execution only if the request's signature matches the HMAC of the raw body
under the shared secret and the payload's ref equals `refs/heads/master`;
a request failing either check never starts an execution. -/
theorem webhook_requires_hmac_and_branch (mac : String → String → String)
    (secret : String) (r : WebhookRequest) :
    (webhookStartsExecution mac ⟨secret, sourceActionConfig.branch⟩ r = true →
      r.signature = mac secret r.payload.rawBody ∧
      r.payload.ref = "refs/heads/master") ∧
    ((r.signature ≠ mac secret r.payload.rawBody ∨
      r.payload.ref ≠ "refs/heads/master") →
      webhookStartsExecution mac ⟨secret, sourceActionConfig.branch⟩ r = false) := by
  have hres : resolvedRefFilter sourceActionConfig.branch = "refs/heads/master" := by
    decide
  constructor
  · intro h
    rw [webhookStartsExecution, hres, Bool.and_eq_true, beq_iff_eq, beq_iff_eq] at h
    exact h
  · intro h
    rw [webhookStartsExecution, hres]
    rcases h with h | h
    · simp [h]
    · simp [h]

/-- Witness for `webhook_requires_hmac_and_branch`: a correctly signed push
to `refs/heads/feature-x` is rejected. -/
theorem webhook_rejects_witness :
    webhookStartsExecution (fun s b => s ++ ":" ++ b)
      ⟨"tok", sourceActionConfig.branch⟩
      ⟨⟨"refs/heads/feature-x", "body"⟩, "tok:body"⟩ = false := by
  have h := webhook_requires_hmac_and_branch (fun s b => s ++ ":" ++ b) "tok"
    ⟨⟨"refs/heads/feature-x", "body"⟩, "tok:body"⟩
  exact h.2 (Or.inr (by decide))

/-- C8 counterexample: the claim that every configuration value is a
required parameter with no default except `branch` (defaulting to
`master`) is false of the source's configuration surface: `repoOwner` is
the `GithubUser` parameter with default `aws-samples`, and `branch` is a
hard-coded value, not a defaulted parameter. -/
theorem config_all_required_cex : allRequiredExceptBranch = false := by
  decide

/-- C8 amended: of the configuration surface, only `sharedSecret`
(`GithubOauthToken`) is a required parameter with no default; `repoOwner`
(`GithubUser`) is a parameter defaulting to `aws-samples`; and `repoName`,
`branch`, `artifactNamePattern`, `buildCommand` and `gateTimeout` are
hard-coded values (`amazon-kinesis-analytics-beam-taxi-consumer`,
`master`, `target/beam-taxi-count-*.jar`, `mvn clean package -B`,
`300`). -/
theorem config_surface_origins :
    configOriginOf "sharedSecret" = some (.requiredParam "GithubOauthToken") ∧
    configOriginOf "repoOwner" = some (.defaultedParam "GithubUser" "aws-samples") ∧
    configOriginOf "branch" = some (.fixedValue "master") ∧
    configOriginOf "repoName" =
      some (.fixedValue "amazon-kinesis-analytics-beam-taxi-consumer") ∧
    configOriginOf "artifactNamePattern" =
      some (.fixedValue "target/beam-taxi-count-*.jar") ∧
    configOriginOf "buildCommand" = some (.fixedValue "mvn clean package -B") ∧
    configOriginOf "gateTimeout" = some (.fixedValue "300") ∧
    (configSurface.filter fun c => requiredNoDefault c.origin).map
      ConfigItem.specName = ["sharedSecret"] := by
  decide

end BeamTaxi
